import Mathlib

/-!
Shallow embedding of the chord-detection engine of `src/key_listener.py`
(whisper-writer): the key-identity model, the per-chord pressed-key state
machine (`KeyChord`), the combination parser and the `KeyListener`
orchestrator with its fixed-priority callback arbitration.

Python sets are modelled as `Finset`, mutation as explicit state passing,
and the possibility of dereferencing an unset (`None`) attribute as an
`Option` result.  Callback functions are opaque and modelled by handler
identifiers; "invoking the callbacks of a class" is modelled as the ordered
list of handler identifiers that would be called.
-/

/-- Event kinds, embedding the Python `InputEvent` enum. -/
inductive InputEvent where
  | KEY_PRESS
  | KEY_RELEASE
  | MOUSE_PRESS
  | MOUSE_RELEASE
deriving DecidableEq, Repr

/-- Key and mouse-button identities, embedding the Python `KeyCode` enum
(one constructor per member, in source order). -/
inductive KeyCode where
  | CTRL_LEFT
  | CTRL_RIGHT
  | SHIFT_LEFT
  | SHIFT_RIGHT
  | ALT_LEFT
  | ALT_RIGHT
  | META_LEFT
  | META_RIGHT
  | F1
  | F2
  | F3
  | F4
  | F5
  | F6
  | F7
  | F8
  | F9
  | F10
  | F11
  | F12
  | F13
  | F14
  | F15
  | F16
  | F17
  | F18
  | F19
  | F20
  | F21
  | F22
  | F23
  | F24
  | ONE
  | TWO
  | THREE
  | FOUR
  | FIVE
  | SIX
  | SEVEN
  | EIGHT
  | NINE
  | ZERO
  | A
  | B
  | C
  | D
  | E
  | F
  | G
  | H
  | I
  | J
  | K
  | L
  | M
  | N
  | O
  | P
  | Q
  | R
  | S
  | T
  | U
  | V
  | W
  | X
  | Y
  | Z
  | SPACE
  | ENTER
  | TAB
  | BACKSPACE
  | ESC
  | INSERT
  | DELETE
  | HOME
  | END
  | PAGE_UP
  | PAGE_DOWN
  | CAPS_LOCK
  | NUM_LOCK
  | SCROLL_LOCK
  | PAUSE
  | PRINT_SCREEN
  | UP
  | DOWN
  | LEFT
  | RIGHT
  | NUMPAD_0
  | NUMPAD_1
  | NUMPAD_2
  | NUMPAD_3
  | NUMPAD_4
  | NUMPAD_5
  | NUMPAD_6
  | NUMPAD_7
  | NUMPAD_8
  | NUMPAD_9
  | NUMPAD_ADD
  | NUMPAD_SUBTRACT
  | NUMPAD_MULTIPLY
  | NUMPAD_DIVIDE
  | NUMPAD_DECIMAL
  | NUMPAD_ENTER
  | MINUS
  | EQUALS
  | LEFT_BRACKET
  | RIGHT_BRACKET
  | SEMICOLON
  | QUOTE
  | BACKQUOTE
  | BACKSLASH
  | COMMA
  | PERIOD
  | SLASH
  | MUTE
  | VOLUME_DOWN
  | VOLUME_UP
  | PLAY_PAUSE
  | NEXT_TRACK
  | PREV_TRACK
  | MEDIA_PLAY
  | MEDIA_PAUSE
  | MEDIA_PLAY_PAUSE
  | MEDIA_STOP
  | MEDIA_PREVIOUS
  | MEDIA_NEXT
  | MEDIA_REWIND
  | MEDIA_FAST_FORWARD
  | AUDIO_MUTE
  | AUDIO_VOLUME_UP
  | AUDIO_VOLUME_DOWN
  | MEDIA_SELECT
  | WWW
  | MAIL
  | CALCULATOR
  | COMPUTER
  | APP_SEARCH
  | APP_HOME
  | APP_BACK
  | APP_FORWARD
  | APP_STOP
  | APP_REFRESH
  | APP_BOOKMARKS
  | BRIGHTNESS_DOWN
  | BRIGHTNESS_UP
  | DISPLAY_SWITCH
  | KEYBOARD_ILLUMINATION_TOGGLE
  | KEYBOARD_ILLUMINATION_DOWN
  | KEYBOARD_ILLUMINATION_UP
  | EJECT
  | SLEEP
  | WAKE
  | EMOJI
  | MENU
  | CLEAR
  | LOCK
  | MOUSE_LEFT
  | MOUSE_RIGHT
  | MOUSE_MIDDLE
  | MOUSE_BACK
  | MOUSE_FORWARD
  | MOUSE_SIDE1
  | MOUSE_SIDE2
  | MOUSE_SIDE3
deriving DecidableEq, Repr

def KeyCode.fromName (s : String) : Option KeyCode :=
  match s with
  | "CTRL_LEFT" => some KeyCode.CTRL_LEFT
  | "CTRL_RIGHT" => some KeyCode.CTRL_RIGHT
  | "SHIFT_LEFT" => some KeyCode.SHIFT_LEFT
  | "SHIFT_RIGHT" => some KeyCode.SHIFT_RIGHT
  | "ALT_LEFT" => some KeyCode.ALT_LEFT
  | "ALT_RIGHT" => some KeyCode.ALT_RIGHT
  | "META_LEFT" => some KeyCode.META_LEFT
  | "META_RIGHT" => some KeyCode.META_RIGHT
  | "F1" => some KeyCode.F1
  | "F2" => some KeyCode.F2
  | "F3" => some KeyCode.F3
  | "F4" => some KeyCode.F4
  | "F5" => some KeyCode.F5
  | "F6" => some KeyCode.F6
  | "F7" => some KeyCode.F7
  | "F8" => some KeyCode.F8
  | "F9" => some KeyCode.F9
  | "F10" => some KeyCode.F10
  | "F11" => some KeyCode.F11
  | "F12" => some KeyCode.F12
  | "F13" => some KeyCode.F13
  | "F14" => some KeyCode.F14
  | "F15" => some KeyCode.F15
  | "F16" => some KeyCode.F16
  | "F17" => some KeyCode.F17
  | "F18" => some KeyCode.F18
  | "F19" => some KeyCode.F19
  | "F20" => some KeyCode.F20
  | "F21" => some KeyCode.F21
  | "F22" => some KeyCode.F22
  | "F23" => some KeyCode.F23
  | "F24" => some KeyCode.F24
  | "ONE" => some KeyCode.ONE
  | "TWO" => some KeyCode.TWO
  | "THREE" => some KeyCode.THREE
  | "FOUR" => some KeyCode.FOUR
  | "FIVE" => some KeyCode.FIVE
  | "SIX" => some KeyCode.SIX
  | "SEVEN" => some KeyCode.SEVEN
  | "EIGHT" => some KeyCode.EIGHT
  | "NINE" => some KeyCode.NINE
  | "ZERO" => some KeyCode.ZERO
  | "A" => some KeyCode.A
  | "B" => some KeyCode.B
  | "C" => some KeyCode.C
  | "D" => some KeyCode.D
  | "E" => some KeyCode.E
  | "F" => some KeyCode.F
  | "G" => some KeyCode.G
  | "H" => some KeyCode.H
  | "I" => some KeyCode.I
  | "J" => some KeyCode.J
  | "K" => some KeyCode.K
  | "L" => some KeyCode.L
  | "M" => some KeyCode.M
  | "N" => some KeyCode.N
  | "O" => some KeyCode.O
  | "P" => some KeyCode.P
  | "Q" => some KeyCode.Q
  | "R" => some KeyCode.R
  | "S" => some KeyCode.S
  | "T" => some KeyCode.T
  | "U" => some KeyCode.U
  | "V" => some KeyCode.V
  | "W" => some KeyCode.W
  | "X" => some KeyCode.X
  | "Y" => some KeyCode.Y
  | "Z" => some KeyCode.Z
  | "SPACE" => some KeyCode.SPACE
  | "ENTER" => some KeyCode.ENTER
  | "TAB" => some KeyCode.TAB
  | "BACKSPACE" => some KeyCode.BACKSPACE
  | "ESC" => some KeyCode.ESC
  | "INSERT" => some KeyCode.INSERT
  | "DELETE" => some KeyCode.DELETE
  | "HOME" => some KeyCode.HOME
  | "END" => some KeyCode.END
  | "PAGE_UP" => some KeyCode.PAGE_UP
  | "PAGE_DOWN" => some KeyCode.PAGE_DOWN
  | "CAPS_LOCK" => some KeyCode.CAPS_LOCK
  | "NUM_LOCK" => some KeyCode.NUM_LOCK
  | "SCROLL_LOCK" => some KeyCode.SCROLL_LOCK
  | "PAUSE" => some KeyCode.PAUSE
  | "PRINT_SCREEN" => some KeyCode.PRINT_SCREEN
  | "UP" => some KeyCode.UP
  | "DOWN" => some KeyCode.DOWN
  | "LEFT" => some KeyCode.LEFT
  | "RIGHT" => some KeyCode.RIGHT
  | "NUMPAD_0" => some KeyCode.NUMPAD_0
  | "NUMPAD_1" => some KeyCode.NUMPAD_1
  | "NUMPAD_2" => some KeyCode.NUMPAD_2
  | "NUMPAD_3" => some KeyCode.NUMPAD_3
  | "NUMPAD_4" => some KeyCode.NUMPAD_4
  | "NUMPAD_5" => some KeyCode.NUMPAD_5
  | "NUMPAD_6" => some KeyCode.NUMPAD_6
  | "NUMPAD_7" => some KeyCode.NUMPAD_7
  | "NUMPAD_8" => some KeyCode.NUMPAD_8
  | "NUMPAD_9" => some KeyCode.NUMPAD_9
  | "NUMPAD_ADD" => some KeyCode.NUMPAD_ADD
  | "NUMPAD_SUBTRACT" => some KeyCode.NUMPAD_SUBTRACT
  | "NUMPAD_MULTIPLY" => some KeyCode.NUMPAD_MULTIPLY
  | "NUMPAD_DIVIDE" => some KeyCode.NUMPAD_DIVIDE
  | "NUMPAD_DECIMAL" => some KeyCode.NUMPAD_DECIMAL
  | "NUMPAD_ENTER" => some KeyCode.NUMPAD_ENTER
  | "MINUS" => some KeyCode.MINUS
  | "EQUALS" => some KeyCode.EQUALS
  | "LEFT_BRACKET" => some KeyCode.LEFT_BRACKET
  | "RIGHT_BRACKET" => some KeyCode.RIGHT_BRACKET
  | "SEMICOLON" => some KeyCode.SEMICOLON
  | "QUOTE" => some KeyCode.QUOTE
  | "BACKQUOTE" => some KeyCode.BACKQUOTE
  | "BACKSLASH" => some KeyCode.BACKSLASH
  | "COMMA" => some KeyCode.COMMA
  | "PERIOD" => some KeyCode.PERIOD
  | "SLASH" => some KeyCode.SLASH
  | "MUTE" => some KeyCode.MUTE
  | "VOLUME_DOWN" => some KeyCode.VOLUME_DOWN
  | "VOLUME_UP" => some KeyCode.VOLUME_UP
  | "PLAY_PAUSE" => some KeyCode.PLAY_PAUSE
  | "NEXT_TRACK" => some KeyCode.NEXT_TRACK
  | "PREV_TRACK" => some KeyCode.PREV_TRACK
  | "MEDIA_PLAY" => some KeyCode.MEDIA_PLAY
  | "MEDIA_PAUSE" => some KeyCode.MEDIA_PAUSE
  | "MEDIA_PLAY_PAUSE" => some KeyCode.MEDIA_PLAY_PAUSE
  | "MEDIA_STOP" => some KeyCode.MEDIA_STOP
  | "MEDIA_PREVIOUS" => some KeyCode.MEDIA_PREVIOUS
  | "MEDIA_NEXT" => some KeyCode.MEDIA_NEXT
  | "MEDIA_REWIND" => some KeyCode.MEDIA_REWIND
  | "MEDIA_FAST_FORWARD" => some KeyCode.MEDIA_FAST_FORWARD
  | "AUDIO_MUTE" => some KeyCode.AUDIO_MUTE
  | "AUDIO_VOLUME_UP" => some KeyCode.AUDIO_VOLUME_UP
  | "AUDIO_VOLUME_DOWN" => some KeyCode.AUDIO_VOLUME_DOWN
  | "MEDIA_SELECT" => some KeyCode.MEDIA_SELECT
  | "WWW" => some KeyCode.WWW
  | "MAIL" => some KeyCode.MAIL
  | "CALCULATOR" => some KeyCode.CALCULATOR
  | "COMPUTER" => some KeyCode.COMPUTER
  | "APP_SEARCH" => some KeyCode.APP_SEARCH
  | "APP_HOME" => some KeyCode.APP_HOME
  | "APP_BACK" => some KeyCode.APP_BACK
  | "APP_FORWARD" => some KeyCode.APP_FORWARD
  | "APP_STOP" => some KeyCode.APP_STOP
  | "APP_REFRESH" => some KeyCode.APP_REFRESH
  | "APP_BOOKMARKS" => some KeyCode.APP_BOOKMARKS
  | "BRIGHTNESS_DOWN" => some KeyCode.BRIGHTNESS_DOWN
  | "BRIGHTNESS_UP" => some KeyCode.BRIGHTNESS_UP
  | "DISPLAY_SWITCH" => some KeyCode.DISPLAY_SWITCH
  | "KEYBOARD_ILLUMINATION_TOGGLE" => some KeyCode.KEYBOARD_ILLUMINATION_TOGGLE
  | "KEYBOARD_ILLUMINATION_DOWN" => some KeyCode.KEYBOARD_ILLUMINATION_DOWN
  | "KEYBOARD_ILLUMINATION_UP" => some KeyCode.KEYBOARD_ILLUMINATION_UP
  | "EJECT" => some KeyCode.EJECT
  | "SLEEP" => some KeyCode.SLEEP
  | "WAKE" => some KeyCode.WAKE
  | "EMOJI" => some KeyCode.EMOJI
  | "MENU" => some KeyCode.MENU
  | "CLEAR" => some KeyCode.CLEAR
  | "LOCK" => some KeyCode.LOCK
  | "MOUSE_LEFT" => some KeyCode.MOUSE_LEFT
  | "MOUSE_RIGHT" => some KeyCode.MOUSE_RIGHT
  | "MOUSE_MIDDLE" => some KeyCode.MOUSE_MIDDLE
  | "MOUSE_BACK" => some KeyCode.MOUSE_BACK
  | "MOUSE_FORWARD" => some KeyCode.MOUSE_FORWARD
  | "MOUSE_SIDE1" => some KeyCode.MOUSE_SIDE1
  | "MOUSE_SIDE2" => some KeyCode.MOUSE_SIDE2
  | "MOUSE_SIDE3" => some KeyCode.MOUSE_SIDE3
  | _ => none

/-- One element of a chord definition: the Python `keys` set holds either a
bare `KeyCode` or a `frozenset` of `KeyCode`s (an alternative-group). -/
inductive ChordElement where
  | single (key : KeyCode)
  | group (keys : Finset KeyCode)
deriving DecidableEq

/-- State of the Python `KeyChord` class: the chord definition `keys` and
the mutable set `pressed_keys` (initialised to `set()` in `__init__`). -/
structure KeyChord where
  keys : Finset ChordElement
  pressed_keys : Finset KeyCode
deriving DecidableEq

/-- Satisfaction of one element of `KeyChord.keys` against a pressed set:
the `isinstance(key, frozenset)` branch of `KeyChord.is_active` requires
`any(k in self.pressed_keys for k in key)`; the other branch requires
`key in self.pressed_keys`. -/
def ChordElement.satisfiedBy : ChordElement → Finset KeyCode → Bool
  | ChordElement.group g, pressed => decide (∃ k ∈ g, k ∈ pressed)
  | ChordElement.single k, pressed => decide (k ∈ pressed)

/-- `KeyChord.is_active`: the Python loop returns `False` as soon as one
element of `self.keys` is unsatisfied and `True` otherwise, i.e. it is the
conjunction over all elements of the definition. -/
def KeyChord.is_active (c : KeyChord) : Bool :=
  decide (∀ e ∈ c.keys, e.satisfiedBy c.pressed_keys = true)

/-- `KeyChord.update`: on `KEY_PRESS` add the key to `pressed_keys`, on
`KEY_RELEASE` discard it (a no-op when absent), on any other event kind
leave the set unchanged; then return `self.is_active()`.  The mutated
chord is returned alongside the returned boolean. -/
def KeyChord.update (c : KeyChord) (key : KeyCode) (event_type : InputEvent) :
    KeyChord × Bool :=
  let c' :=
    if event_type = InputEvent.KEY_PRESS then
      { c with pressed_keys := insert key c.pressed_keys }
    else if event_type = InputEvent.KEY_RELEASE then
      { c with pressed_keys := c.pressed_keys.erase key }
    else c
  (c', c'.is_active)

/-- Handlers are opaque zero-argument callables; we model them by opaque
identifiers. -/
abbrev Handler := Nat

/-- The `self.callbacks` dictionary of `KeyListener.__init__`: one ordered
list of handlers per callback class, fields in source order. -/
structure Callbacks where
  on_activate_typing_only : List Handler
  on_activate_clipboard_only : List Handler
  on_activate_typing_and_clipboard : List Handler
  on_deactivate : List Handler
deriving DecidableEq

/-- `self.callbacks.get(event, [])`: dictionary lookup with an empty-list
default for a key that is not a callback class. -/
def Callbacks.get (cbs : Callbacks) (event : String) : List Handler :=
  if event = "on_activate_typing_only" then cbs.on_activate_typing_only
  else if event = "on_activate_clipboard_only" then cbs.on_activate_clipboard_only
  else if event = "on_activate_typing_and_clipboard" then cbs.on_activate_typing_and_clipboard
  else if event = "on_deactivate" then cbs.on_deactivate
  else []

/-- State of the Python `KeyListener`: whether an input backend is set
(`self.input_backend`, `None` until `initialize_backend` runs), the three
chord slots (`None` until `set_activation_keys` runs) and the callback
registry. -/
structure KeyListener where
  input_backend : Bool
  typing_only_chord : Option KeyChord
  typing_and_clipboard_chord : Option KeyChord
  clipboard_only_chord : Option KeyChord
  callbacks : Callbacks
deriving DecidableEq

/-- The `key_map` dictionary of `KeyListener.parse_key_combination`: the
four modifier names map to a two-member left/right `frozenset`. -/
def modifierGroup (tok : String) : Option (Finset KeyCode) :=
  if tok = "CTRL" then some {KeyCode.CTRL_LEFT, KeyCode.CTRL_RIGHT}
  else if tok = "SHIFT" then some {KeyCode.SHIFT_LEFT, KeyCode.SHIFT_RIGHT}
  else if tok = "ALT" then some {KeyCode.ALT_LEFT, KeyCode.ALT_RIGHT}
  else if tok = "META" then some {KeyCode.META_LEFT, KeyCode.META_RIGHT}
  else none

/-- Python `str.split('+')` on the character list of a string: cut at every
occurrence of `+`; the result always has one more token than there are
separators (so the empty string yields one empty token). -/
def splitPlus (cs : List Char) : List (List Char) :=
  cs.foldr
    (fun c acc =>
      if c = '+' then [] :: acc
      else
        match acc with
        | t :: ts => (c :: t) :: ts
        | [] => [[c]])
    [[]]

/-- Python `str.strip()`: drop whitespace from both ends of a token. -/
def strip (cs : List Char) : List Char :=
  ((cs.dropWhile Char.isWhitespace).reverse.dropWhile Char.isWhitespace).reverse

/-- `KeyListener.parse_key_combination`: uppercase the whole string
(`str.upper`, per-character on the ASCII names involved), split on `+`,
strip each token; a modifier token adds its alternative-group, any other
token is looked up as a `KeyCode` name (`KeyCode[key]`), and a lookup
failure (`KeyError`) only prints a diagnostic and skips the token.
`parseToken` is the loop body, one token per call. -/
def parseToken (keys : Finset ChordElement) (rawTok : List Char) : Finset ChordElement :=
  let key := String.mk (strip rawTok)
  match modifierGroup key with
  | some g => insert (ChordElement.group g) keys
  | none =>
    match KeyCode.fromName key with
    | some keycode => insert (ChordElement.single keycode) keys
    | none => keys

def parse_key_combination (combination_string : String) : Finset ChordElement :=
  (splitPlus (combination_string.data.map Char.toUpper)).foldl parseToken ∅

/-- `KeyListener.set_activation_keys`: overwrite all three chord slots with
freshly constructed `KeyChord`s (each with an empty pressed set). -/
def KeyListener.set_activation_keys (l : KeyListener)
    (typing_only_keys typing_and_clipboard_keys clipboard_only_keys : Finset ChordElement) :
    KeyListener :=
  { l with
    typing_only_chord := some { keys := typing_only_keys, pressed_keys := ∅ },
    typing_and_clipboard_chord := some { keys := typing_and_clipboard_keys, pressed_keys := ∅ },
    clipboard_only_chord := some { keys := clipboard_only_keys, pressed_keys := ∅ } }

/-- `KeyListener.update_activation_keys` calls
`load_activation_keys_from_config`, which reads the three combination
strings from the configuration (an external key-value provider, passed
here as arguments), parses them and calls `set_activation_keys`. -/
def KeyListener.update_activation_keys (l : KeyListener)
    (typing_only_key typing_and_clipboard_key clipboard_only_key : String) : KeyListener :=
  l.set_activation_keys (parse_key_combination typing_only_key)
    (parse_key_combination typing_and_clipboard_key)
    (parse_key_combination clipboard_only_key)

/-- `KeyListener.add_callback`: append the handler to the list of the given
event class if the key is in the `callbacks` dictionary, otherwise do
nothing. -/
def KeyListener.add_callback (l : KeyListener) (event : String) (callback : Handler) :
    KeyListener :=
  if event = "on_activate_typing_only" then
    { l with callbacks :=
      { l.callbacks with on_activate_typing_only :=
          l.callbacks.on_activate_typing_only ++ [callback] } }
  else if event = "on_activate_clipboard_only" then
    { l with callbacks :=
      { l.callbacks with on_activate_clipboard_only :=
          l.callbacks.on_activate_clipboard_only ++ [callback] } }
  else if event = "on_activate_typing_and_clipboard" then
    { l with callbacks :=
      { l.callbacks with on_activate_typing_and_clipboard :=
          l.callbacks.on_activate_typing_and_clipboard ++ [callback] } }
  else if event = "on_deactivate" then
    { l with callbacks :=
      { l.callbacks with on_deactivate := l.callbacks.on_deactivate ++ [callback] } }
  else l

/-- `KeyListener._trigger_callbacks`: call every handler registered for the
event class, in list order; modelled as the ordered list of handlers that
get invoked. -/
def KeyListener.trigger_callbacks (l : KeyListener) (event : String) : List Handler :=
  l.callbacks.get event

/-- `KeyListener.on_input_event`.  Returns `none` when the Python method
would raise (dereferencing an unset chord attribute); otherwise returns
the listener after the three `update` calls, the callback class passed to
`_trigger_callbacks` (if any), and the ordered list of handlers invoked. -/
def KeyListener.on_input_event (l : KeyListener) (event : KeyCode × InputEvent) :
    Option (KeyListener × Option String × List Handler) :=
  if l.typing_only_chord.isNone || !l.input_backend then
    some (l, none, [])
  else
    match l.typing_and_clipboard_chord, l.clipboard_only_chord, l.typing_only_chord with
    | some tcChord, some coChord, some tChord =>
      let key := event.1
      let event_type := event.2
      let was_t := tChord.is_active
      let was_tc := tcChord.is_active
      let was_co := coChord.is_active
      let ut := tChord.update key event_type
      let utc := tcChord.update key event_type
      let uco := coChord.update key event_type
      let fired : Option String :=
        if !was_t && ut.2 then some "on_activate_typing_only"
        else if !was_tc && utc.2 then some "on_activate_typing_and_clipboard"
        else if !was_co && uco.2 then some "on_activate_clipboard_only"
        else if (was_t || was_tc || was_co) && !(ut.2 || utc.2 || uco.2) then
          some "on_deactivate"
        else none
      let invoked : List Handler :=
        match fired with
        | some s => l.trigger_callbacks s
        | none => []
      some ({ l with
              typing_only_chord := some ut.1,
              typing_and_clipboard_chord := some utc.1,
              clipboard_only_chord := some uco.1 }, fired, invoked)
    | _, _, _ => none

/-- Projection: the callback class fired by one `on_input_event` call. -/
def firedClass (r : Option (KeyListener × Option String × List Handler)) : Option String :=
  match r with
  | some (_, f, _) => f
  | none => none

/-- Projection: the listener state after one `on_input_event` call. -/
def nextListener (r : Option (KeyListener × Option String × List Handler)) :
    Option KeyListener :=
  match r with
  | some (l, _, _) => some l
  | none => none

/-- C6: for every chord state, identity and event kind, the boolean
returned by `KeyChord.update` equals `is_active` recomputed on the
post-update chord, which itself equals a full recomputation from the
post-update pressed set against the unchanged definition (no cached
activity). -/
theorem update_returns_fresh_activity (c : KeyChord) (key : KeyCode)
    (event_type : InputEvent) :
    (c.update key event_type).2 = (c.update key event_type).1.is_active ∧
    (c.update key event_type).2 =
      KeyChord.is_active
        { keys := c.keys, pressed_keys := (c.update key event_type).1.pressed_keys } ∧
    (c.update key event_type).1.keys = c.keys := by
  refine ⟨rfl, ?_, ?_⟩ <;> cases event_type <;> rfl

/-- C10: repeated `KEY_PRESS` updates with the same identity, and repeated
`KEY_RELEASE` updates with the same identity, are idempotent: the second
application returns exactly the same chord state and activity boolean as
the first. -/
theorem update_press_release_idempotent (c : KeyChord) (key : KeyCode) :
    (c.update key InputEvent.KEY_PRESS).1.update key InputEvent.KEY_PRESS =
      c.update key InputEvent.KEY_PRESS ∧
    (c.update key InputEvent.KEY_RELEASE).1.update key InputEvent.KEY_RELEASE =
      c.update key InputEvent.KEY_RELEASE := by
  constructor <;>
    simp [KeyChord.update, Finset.insert_idem, Finset.erase_idem]

/-- C4 counterexample: a mouse-button press event kind does not insert the
identity into the pressed set — `KeyChord.update` only mutates on
`KEY_PRESS` and `KEY_RELEASE`, so `MOUSE_PRESS` leaves the empty pressed
set empty instead of adding `MOUSE_LEFT`. -/
theorem mouse_press_claim_counterexample :
    ¬ (((KeyChord.mk ∅ ∅).update KeyCode.MOUSE_LEFT InputEvent.MOUSE_PRESS).1.pressed_keys =
        insert KeyCode.MOUSE_LEFT (∅ : Finset KeyCode)) := by decide

/-- C4 (amended): `KeyChord.update` with `KEY_PRESS` yields the old pressed
set plus the identity and with `KEY_RELEASE` the old set minus it;
`MOUSE_PRESS` and `MOUSE_RELEASE` leave the pressed set unchanged; and
releasing an identity not in the pressed set raises no error and leaves
the set unchanged. -/
theorem update_pressed_set_evolution (c : KeyChord) (key : KeyCode) :
    (c.update key InputEvent.KEY_PRESS).1.pressed_keys = insert key c.pressed_keys ∧
    (c.update key InputEvent.KEY_RELEASE).1.pressed_keys = c.pressed_keys.erase key ∧
    (c.update key InputEvent.MOUSE_PRESS).1.pressed_keys = c.pressed_keys ∧
    (c.update key InputEvent.MOUSE_RELEASE).1.pressed_keys = c.pressed_keys ∧
    (key ∉ c.pressed_keys →
      (c.update key InputEvent.KEY_RELEASE).1.pressed_keys = c.pressed_keys) := by
  refine ⟨rfl, rfl, rfl, rfl, fun h => ?_⟩
  simpa [KeyChord.update] using Finset.erase_eq_of_not_mem h

/-- C4 witness: releasing `A` on a chord that never saw it pressed leaves
the pressed set unchanged. -/
theorem update_pressed_set_evolution_witness :
    ((KeyChord.mk ∅ ∅).update KeyCode.A InputEvent.KEY_RELEASE).1.pressed_keys =
      (KeyChord.mk ∅ ∅).pressed_keys :=
  (update_pressed_set_evolution (KeyChord.mk ∅ ∅) KeyCode.A).2.2.2.2 (by decide)

/-- C9: when the chords are unconfigured (`typing_only_chord` unset) or no
input backend is set, `on_input_event` returns immediately: the listener
is unchanged, no callback class fires, no handler is invoked, and the call
does not raise (result is `some`, never the `none` that models an
attribute error). -/
theorem on_input_event_unconfigured_guard (l : KeyListener)
    (event : KeyCode × InputEvent)
    (h : l.typing_only_chord = none ∨ l.input_backend = false) :
    l.on_input_event event = some (l, none, []) := by
  unfold KeyListener.on_input_event
  rcases h with h | h <;> simp [h]

/-- C9 witness: the freshly constructed listener with no backend and no
chords ignores a key press. -/
theorem on_input_event_unconfigured_guard_witness :
    (KeyListener.mk false none none none ⟨[], [], [], []⟩).on_input_event
        (KeyCode.A, InputEvent.KEY_PRESS) =
      some (KeyListener.mk false none none none ⟨[], [], [], []⟩, none, []) :=
  on_input_event_unconfigured_guard _ _ (Or.inl rfl)

/-- C7: a configuration reload (`update_activation_keys`, given the three
combination strings read from the configuration) replaces all three chord
slots with freshly constructed chords over the newly parsed definitions,
each with an empty pressed set, and leaves the callback registry and the
backend untouched. -/
theorem update_activation_keys_replaces_chords (l : KeyListener)
    (s1 s2 s3 : String) :
    (l.update_activation_keys s1 s2 s3).typing_only_chord =
      some { keys := parse_key_combination s1, pressed_keys := ∅ } ∧
    (l.update_activation_keys s1 s2 s3).typing_and_clipboard_chord =
      some { keys := parse_key_combination s2, pressed_keys := ∅ } ∧
    (l.update_activation_keys s1 s2 s3).clipboard_only_chord =
      some { keys := parse_key_combination s3, pressed_keys := ∅ } ∧
    (l.update_activation_keys s1 s2 s3).callbacks = l.callbacks ∧
    (l.update_activation_keys s1 s2 s3).input_backend = l.input_backend :=
  ⟨rfl, rfl, rfl, rfl, rfl⟩

/-- C3: `is_active` holds iff every element of the definition is satisfied
(any member pressed for an alternative-group, the identity itself pressed
for a single element), and a chord with an empty definition is always
active. -/
theorem is_active_iff_all_elements_satisfied (c : KeyChord) :
    (c.is_active = true ↔
      ((∀ g, ChordElement.group g ∈ c.keys → ∃ k ∈ g, k ∈ c.pressed_keys) ∧
       (∀ k, ChordElement.single k ∈ c.keys → k ∈ c.pressed_keys))) ∧
    (c.keys = ∅ → c.is_active = true) := by
  constructor
  · simp only [KeyChord.is_active, decide_eq_true_eq]
    constructor
    · intro h
      refine ⟨fun g hg => ?_, fun k hk => ?_⟩
      · simpa [ChordElement.satisfiedBy] using h _ hg
      · simpa [ChordElement.satisfiedBy] using h _ hk
    · rintro ⟨hg, hs⟩ e he
      cases e with
      | single k => simpa [ChordElement.satisfiedBy] using hs k he
      | group g => simpa [ChordElement.satisfiedBy] using hg g he
  · intro h
    simp [KeyChord.is_active, h]

/-- C3 witness: the chord with the empty definition and empty pressed set
is active. -/
theorem is_active_iff_all_elements_satisfied_witness :
    (KeyChord.mk ∅ ∅).is_active = true :=
  (is_active_iff_all_elements_satisfied (KeyChord.mk ∅ ∅)).2 rfl

/-- C8: for each of the four callback classes, `add_callback` appends the
handler to the end of exactly that class's list (the other three lists are
untouched), and `_trigger_callbacks` invokes precisely the registered
handlers of the class, once each, in registration order. -/
theorem callback_registration_and_trigger_order (l : KeyListener) (cb : Handler) :
    (l.add_callback "on_activate_typing_only" cb).callbacks =
      { l.callbacks with on_activate_typing_only :=
          l.callbacks.on_activate_typing_only ++ [cb] } ∧
    (l.add_callback "on_activate_clipboard_only" cb).callbacks =
      { l.callbacks with on_activate_clipboard_only :=
          l.callbacks.on_activate_clipboard_only ++ [cb] } ∧
    (l.add_callback "on_activate_typing_and_clipboard" cb).callbacks =
      { l.callbacks with on_activate_typing_and_clipboard :=
          l.callbacks.on_activate_typing_and_clipboard ++ [cb] } ∧
    (l.add_callback "on_deactivate" cb).callbacks =
      { l.callbacks with on_deactivate := l.callbacks.on_deactivate ++ [cb] } ∧
    l.trigger_callbacks "on_activate_typing_only" = l.callbacks.on_activate_typing_only ∧
    l.trigger_callbacks "on_activate_clipboard_only" = l.callbacks.on_activate_clipboard_only ∧
    l.trigger_callbacks "on_activate_typing_and_clipboard" =
      l.callbacks.on_activate_typing_and_clipboard ∧
    l.trigger_callbacks "on_deactivate" = l.callbacks.on_deactivate :=
  ⟨rfl, rfl, rfl, rfl, rfl, rfl, rfl, rfl⟩

/-- C5: parsing "CTRL+SHIFT+Q" yields exactly the CTRL group, the SHIFT
group and the single key Q; parsing "CTRL+BOGUS" yields only the CTRL
group; an all-unrecognized input yields the empty definition; and in
general a token that is neither a modifier name nor a `KeyCode` name
leaves the accumulated definition unchanged (it is skipped without
aborting the remaining tokens, which the surrounding fold keeps
processing). -/
theorem parse_key_combination_spec :
    parse_key_combination "CTRL+SHIFT+Q" =
      {ChordElement.group {KeyCode.CTRL_LEFT, KeyCode.CTRL_RIGHT},
       ChordElement.group {KeyCode.SHIFT_LEFT, KeyCode.SHIFT_RIGHT},
       ChordElement.single KeyCode.Q} ∧
    parse_key_combination "CTRL+BOGUS" =
      {ChordElement.group {KeyCode.CTRL_LEFT, KeyCode.CTRL_RIGHT}} ∧
    parse_key_combination "BOGUS+WAT" = ∅ ∧
    (∀ (keys : Finset ChordElement) (rawTok : List Char),
      modifierGroup (String.mk (strip rawTok)) = none →
      KeyCode.fromName (String.mk (strip rawTok)) = none →
      parseToken keys rawTok = keys) := by
  refine ⟨by decide, by decide, by decide, fun keys rawTok h1 h2 => ?_⟩
  simp [parseToken, h1, h2]

/-- C5 witness: the unrecognized token `BOGUS` is dropped by the per-token
parsing step. -/
theorem parse_key_combination_spec_witness :
    parseToken ∅ "BOGUS".data = ∅ :=
  parse_key_combination_spec.2.2.2 ∅ "BOGUS".data (by decide) (by decide)

/-- The chord bound to the single key R, as in the spec's worked example. -/
def exampleTypingOnly : KeyChord :=
  { keys := {ChordElement.single KeyCode.R}, pressed_keys := ∅ }

/-- The chord requiring both R and S, as in the spec's worked example. -/
def exampleTypingAndClipboard : KeyChord :=
  { keys := {ChordElement.single KeyCode.R, ChordElement.single KeyCode.S}, pressed_keys := ∅ }

/-- A third chord, bound to T, inactive throughout the worked example. -/
def exampleClipboardOnly : KeyChord :=
  { keys := {ChordElement.single KeyCode.T}, pressed_keys := ∅ }

/-- The listener of the worked example: backend set, the three example
chords configured, no handlers registered. -/
def exampleListener : KeyListener :=
  { input_backend := true,
    typing_only_chord := some exampleTypingOnly,
    typing_and_clipboard_chord := some exampleTypingAndClipboard,
    clipboard_only_chord := some exampleClipboardOnly,
    callbacks := ⟨[], [], [], []⟩ }

/-- C1: the activation callback classes are chosen by a fixed
first-match-wins priority: `activate_typing_only` fires exactly on a
false-to-true transition of the typing-only chord; each later class fires
exactly when its chord transitions false-to-true and no higher-priority
rule matched (so at most one class fires per event); and in the worked
example with `typing_only = {R}` and `typing_and_clipboard = {R, S}`,
pressing R fires `activate_typing_only` and then pressing S fires
`activate_typing_and_clipboard`. -/
theorem arbitration_priority_first_match :
    (∀ (tChord tcChord coChord : KeyChord) (cbs : Callbacks) (key : KeyCode)
        (event_type : InputEvent),
      (firedClass ((KeyListener.mk true (some tChord) (some tcChord) (some coChord)
            cbs).on_input_event (key, event_type)) = some "on_activate_typing_only" ↔
        (tChord.is_active = false ∧ (tChord.update key event_type).2 = true)) ∧
      (firedClass ((KeyListener.mk true (some tChord) (some tcChord) (some coChord)
            cbs).on_input_event (key, event_type)) = some "on_activate_typing_and_clipboard" ↔
        (¬(tChord.is_active = false ∧ (tChord.update key event_type).2 = true) ∧
         tcChord.is_active = false ∧ (tcChord.update key event_type).2 = true)) ∧
      (firedClass ((KeyListener.mk true (some tChord) (some tcChord) (some coChord)
            cbs).on_input_event (key, event_type)) = some "on_activate_clipboard_only" ↔
        (¬(tChord.is_active = false ∧ (tChord.update key event_type).2 = true) ∧
         ¬(tcChord.is_active = false ∧ (tcChord.update key event_type).2 = true) ∧
         coChord.is_active = false ∧ (coChord.update key event_type).2 = true))) ∧
    firedClass (exampleListener.on_input_event (KeyCode.R, InputEvent.KEY_PRESS)) =
      some "on_activate_typing_only" ∧
    firedClass ((exampleListener.on_input_event (KeyCode.R, InputEvent.KEY_PRESS)).bind
        (fun r => r.1.on_input_event (KeyCode.S, InputEvent.KEY_PRESS))) =
      some "on_activate_typing_and_clipboard" := by
  refine ⟨fun tChord tcChord coChord cbs key event_type => ?_, by decide, by decide⟩
  have hred : firedClass ((KeyListener.mk true (some tChord) (some tcChord) (some coChord)
      cbs).on_input_event (key, event_type)) =
      (if !tChord.is_active && (tChord.update key event_type).2 then
        some "on_activate_typing_only"
      else if !tcChord.is_active && (tcChord.update key event_type).2 then
        some "on_activate_typing_and_clipboard"
      else if !coChord.is_active && (coChord.update key event_type).2 then
        some "on_activate_clipboard_only"
      else if (tChord.is_active || tcChord.is_active || coChord.is_active) &&
          !((tChord.update key event_type).2 || (tcChord.update key event_type).2 ||
            (coChord.update key event_type).2) then
        some "on_deactivate"
      else none) := rfl
  rw [hred]
  generalize (tChord.update key event_type).2 = p
  generalize (tcChord.update key event_type).2 = q
  generalize (coChord.update key event_type).2 = r
  generalize tChord.is_active = a
  generalize tcChord.is_active = b
  generalize coChord.is_active = d
  revert a b d p q r
  decide

/-- C2: the deactivate class fires iff at least one chord was active
before the event, none is active after it, and no activation rule (a
false-to-true transition of some chord) matched first; consequently
whenever any chord is active after the event — in particular on a
same-event hand-over from one active chord to another — no deactivation
is reported. -/
theorem deactivation_fires_iff_all_dropped (tChord tcChord coChord : KeyChord)
    (cbs : Callbacks) (key : KeyCode) (event_type : InputEvent) :
    (firedClass ((KeyListener.mk true (some tChord) (some tcChord) (some coChord)
          cbs).on_input_event (key, event_type)) = some "on_deactivate" ↔
      ((tChord.is_active = true ∨ tcChord.is_active = true ∨ coChord.is_active = true) ∧
       ¬((tChord.update key event_type).2 = true ∨ (tcChord.update key event_type).2 = true ∨
         (coChord.update key event_type).2 = true) ∧
       ¬((tChord.is_active = false ∧ (tChord.update key event_type).2 = true) ∨
         (tcChord.is_active = false ∧ (tcChord.update key event_type).2 = true) ∨
         (coChord.is_active = false ∧ (coChord.update key event_type).2 = true)))) ∧
    (((tChord.update key event_type).2 = true ∨ (tcChord.update key event_type).2 = true ∨
        (coChord.update key event_type).2 = true) →
      firedClass ((KeyListener.mk true (some tChord) (some tcChord) (some coChord)
          cbs).on_input_event (key, event_type)) ≠ some "on_deactivate") := by
  have hred : firedClass ((KeyListener.mk true (some tChord) (some tcChord) (some coChord)
      cbs).on_input_event (key, event_type)) =
      (if !tChord.is_active && (tChord.update key event_type).2 then
        some "on_activate_typing_only"
      else if !tcChord.is_active && (tcChord.update key event_type).2 then
        some "on_activate_typing_and_clipboard"
      else if !coChord.is_active && (coChord.update key event_type).2 then
        some "on_activate_clipboard_only"
      else if (tChord.is_active || tcChord.is_active || coChord.is_active) &&
          !((tChord.update key event_type).2 || (tcChord.update key event_type).2 ||
            (coChord.update key event_type).2) then
        some "on_deactivate"
      else none) := rfl
  rw [hred]
  generalize (tChord.update key event_type).2 = p
  generalize (tcChord.update key event_type).2 = q
  generalize (coChord.update key event_type).2 = r
  generalize tChord.is_active = a
  generalize tcChord.is_active = b
  generalize coChord.is_active = d
  revert a b d p q r
  decide

/-- C2 witness: with all three chords on the always-active empty
definition, a key press leaves a chord active afterwards, so no
deactivation is reported. -/
theorem deactivation_fires_iff_all_dropped_witness :
    ((KeyChord.mk ∅ ∅).update KeyCode.A InputEvent.KEY_PRESS).2 = true ∧
    firedClass ((KeyListener.mk true (some (KeyChord.mk ∅ ∅)) (some (KeyChord.mk ∅ ∅))
        (some (KeyChord.mk ∅ ∅)) ⟨[], [], [], []⟩).on_input_event
        (KeyCode.A, InputEvent.KEY_PRESS)) ≠ some "on_deactivate" :=
  ⟨by decide, (deactivation_fires_iff_all_dropped (KeyChord.mk ∅ ∅) (KeyChord.mk ∅ ∅)
      (KeyChord.mk ∅ ∅) ⟨[], [], [], []⟩ KeyCode.A InputEvent.KEY_PRESS).2
      (Or.inl (by decide))⟩
